import Mathlib

/-!
Shallow embedding of the `nexus-rs` addon binding crate
(`src/nexus/src/api/texture.rs`, `src/nexus/src/api/v2.rs`,
`src/nexus/src/addon.rs`).

The crate is a thin FFI binding: C-layout structs, raw function-pointer
types describing a closed-source host ABI, and wrapper functions that
marshal Rust strings into C strings and call through the host's function
pointers.

Modelling conventions:
- Rust strings, paths and C string buffers are byte lists (`List Nat`).
- Raw pointers to textures are addresses (`Nat`), with `0` the null
  pointer; host texture memory is a total map `Nat → Texture`
  (dereferencing an invalid non-null pointer is undefined behaviour in
  the source and therefore excluded from the model).
- Host raw functions are state transformers on that memory, so that the
  binding's own effect on host state can be separated from the host's.
- Each wrapper additionally returns the list of host calls it performs
  (`HostCall`), recording which function pointer it invoked and with
  which marshalled arguments; the source wrappers contain no effects
  besides these calls and pure string conversion.
- Panics (`expect`) are modelled with `Except String`.
-/

/-- Bytes of a Rust `str`/`String` or `Path` value. -/
abbrev RStr := List Nat

/-- An owned C string buffer (the contents of a Rust `CString`). -/
abbrev CStrBuf := List Nat

/-- Modelled from the spec: `util::str_to_c` is not under `src/`; the spec
says wrappers "marshal strings/paths into the host's expected
representation", a NUL-terminated C string, so the conversion copies the
bytes and appends the NUL terminator. (On input containing an interior
NUL byte the real conversion panics; such inputs are outside this
model.) -/
def str_to_c (s : RStr) : CStrBuf := s ++ [0]

/-- Modelled from the spec: `util::path_to_c` is not under `src/`; same
marshalling as `str_to_c`, applied to a path. -/
def path_to_c (p : RStr) : CStrBuf := p ++ [0]

/-- A Windows module handle (`HMODULE`), an opaque address. -/
abbrev HMODULE := Nat

/-- An `ID3D11ShaderResourceView` COM interface pointer. In the source it
is a `NonNull<c_void>` (an `IUnknown`), modelled as a non-null address. -/
abbrev ID3D11ShaderResourceView := { n : Nat // n ≠ 0 }

/-- A loaded texture (`Texture`, texture.rs lines 14-28): width, height,
and an optional shader resource view. -/
structure Texture where
  width : Nat
  height : Nat
  resource : Option ID3D11ShaderResourceView
  deriving DecidableEq

/-- Embeds `Texture::resource_ptr` (texture.rs lines 31-36): returns the
associated resource as a raw pointer. The source transmutes
`Option<ID3D11ShaderResourceView>` to `*const c_void`, relying on the
guaranteed niche layout: `None` becomes the null pointer and `Some`
becomes the non-null interface address. -/
def Texture.resource_ptr (t : Texture) : Nat :=
  match t.resource with
  | none => 0
  | some r => r.val

/-- An `imgui::TextureId`, a wrapped pointer value. -/
structure TextureId where
  ptr : Nat
  deriving DecidableEq

/-- Embeds `Texture::id` (texture.rs lines 38-42): the resource pointer converted
into an `imgui::TextureId`. -/
def Texture.id (t : Texture) : TextureId := ⟨t.resource_ptr⟩

/-- The derived `Clone` on `Texture`: a value copy. -/
def Texture.clone (t : Texture) : Texture := t

/-- Host texture memory: the pointee at each non-null address. -/
abbrev Mem := Nat → Texture

/-- Embeds `<*const Texture>::as_ref` at a pointer: `None` for the null pointer,
the pointee otherwise. -/
def ptr_as_ref (mem : Mem) (p : Nat) : Option Texture :=
  if p = 0 then none else some (mem p)

/-- A C string pointer received by a callback: null, a pointer to a valid
UTF-8 NUL-terminated string with the given contents, or a pointer to
data that is not valid UTF-8. -/
inductive CStrPtr where
  | null
  | valid (s : RStr)
  | invalid
  deriving DecidableEq

/-- Modelled from the spec: `__macro::str_from_c` is not under `src/`; per
its use in the callback-wrapping macros it decodes a C string pointer,
returning `none` for a null pointer or non-UTF-8 data and the decoded
string otherwise. -/
def str_from_c : CStrPtr → Option RStr
  | .null => none
  | .valid s => some s
  | .invalid => none

/-- An abstract observable action performed by a texture receive
callback; the no-op callback performs none. -/
structure CallbackAct where
  code : Nat
  deriving DecidableEq

/-- Embeds `RawTextureReceiveCallback` (texture.rs lines 58-59): an
`extern "C-unwind" fn(*const c_char, *const Texture)`. The identifier
pointer is a `CStrPtr`, the texture pointer is its pointee option, and
the callback's side effects are its list of observable actions. -/
abbrev RawTextureReceiveCallback := CStrPtr → Option Texture → List CallbackAct

/-- Embeds `dummy_receive_texture` (texture.rs line 295): the no-op callback
passed to the host when the caller provides no callback. -/
def dummy_receive_texture : RawTextureReceiveCallback := fun _ _ => []

/-- Modelled from the spec: the host API table's texture sub-table
(`TextureApi`, from the crate's current `AddonApi` version, not under
`src/`). Its fields are the raw host function pointers destructured by
the wrappers in texture.rs; their signatures follow the `Raw*` types
declared in texture.rs lines 61-111. Each returns or mutates host
texture memory; the `get`-family functions return a `*const Texture`. -/
structure TextureApi where
  get : CStrBuf → Mem → Nat × Mem
  get_or_create_from_file : CStrBuf → CStrBuf → Mem → Nat × Mem
  get_or_create_from_resource : CStrBuf → Nat → HMODULE → Mem → Nat × Mem
  get_or_create_from_url : CStrBuf → CStrBuf → CStrBuf → Mem → Nat × Mem
  get_or_create_from_memory : CStrBuf → List Nat → Nat → Mem → Nat × Mem
  load_from_file : CStrBuf → CStrBuf → RawTextureReceiveCallback → Mem → Mem
  load_from_resource : CStrBuf → Nat → HMODULE → RawTextureReceiveCallback → Mem → Mem
  load_from_url : CStrBuf → CStrBuf → CStrBuf → RawTextureReceiveCallback → Mem → Mem
  load_from_memory : CStrBuf → List Nat → Nat → RawTextureReceiveCallback → Mem → Mem

/-- One call through a raw host function pointer, with the exact
arguments passed across the boundary. -/
inductive HostCall where
  | get (identifier : CStrBuf)
  | getOrCreateFromFile (identifier file : CStrBuf)
  | getOrCreateFromResource (identifier : CStrBuf) (resource_id : Nat) (module : HMODULE)
  | getOrCreateFromUrl (identifier remote endpoint : CStrBuf)
  | getOrCreateFromMemory (identifier : CStrBuf) (data : List Nat) (size : Nat)
  | loadFromFile (identifier file : CStrBuf) (callback : RawTextureReceiveCallback)
  | loadFromResource (identifier : CStrBuf) (resource_id : Nat) (module : HMODULE)
      (callback : RawTextureReceiveCallback)
  | loadFromUrl (identifier remote endpoint : CStrBuf)
      (callback : RawTextureReceiveCallback)
  | loadFromMemory (identifier : CStrBuf) (data : List Nat) (size : Nat)
      (callback : RawTextureReceiveCallback)

/-- Embeds `get_texture` (texture.rs lines 113-118): converts the identifier,
calls the host's `get`, and clones the pointee if the returned pointer
is non-null. Returns the result, the host memory after the call, and
the list of host calls performed. -/
def get_texture (api : TextureApi) (identifier : RStr) (mem : Mem) :
    Option Texture × Mem × List HostCall :=
  let identifier := str_to_c identifier
  let r := api.get identifier mem
  ((ptr_as_ref r.2 r.1).map Texture.clone, r.2, [HostCall.get identifier])

/-- Embeds `get_texture_or_create_from_file` (texture.rs lines 120-136). -/
def get_texture_or_create_from_file (api : TextureApi) (identifier file : RStr)
    (mem : Mem) : Option Texture × Mem × List HostCall :=
  let identifier := str_to_c identifier
  let file := path_to_c file
  let r := api.get_or_create_from_file identifier file mem
  ((ptr_as_ref r.2 r.1).map Texture.clone, r.2,
    [HostCall.getOrCreateFromFile identifier file])

/-- Embeds `get_texture_or_create_from_resource` (texture.rs lines 138-154). -/
def get_texture_or_create_from_resource (api : TextureApi) (identifier : RStr)
    (resource_id : Nat) (module : HMODULE) (mem : Mem) :
    Option Texture × Mem × List HostCall :=
  let identifier := str_to_c identifier
  let r := api.get_or_create_from_resource identifier resource_id module mem
  ((ptr_as_ref r.2 r.1).map Texture.clone, r.2,
    [HostCall.getOrCreateFromResource identifier resource_id module])

/-- Embeds `get_texture_or_create_from_url` (texture.rs lines 156-174). -/
def get_texture_or_create_from_url (api : TextureApi)
    (identifier remote endpoint : RStr) (mem : Mem) :
    Option Texture × Mem × List HostCall :=
  let identifier := str_to_c identifier
  let remote := str_to_c remote
  let endpoint := str_to_c endpoint
  let r := api.get_or_create_from_url identifier remote endpoint mem
  ((ptr_as_ref r.2 r.1).map Texture.clone, r.2,
    [HostCall.getOrCreateFromUrl identifier remote endpoint])

/-- Embeds `get_texture_or_create_from_memory` (texture.rs lines 176-192): passes
the memory slice's data pointer and length; modelled as the byte list
and its length. -/
def get_texture_or_create_from_memory (api : TextureApi) (identifier : RStr)
    (memory : List Nat) (mem : Mem) : Option Texture × Mem × List HostCall :=
  let identifier := str_to_c identifier
  let r := api.get_or_create_from_memory identifier memory memory.length mem
  ((ptr_as_ref r.2 r.1).map Texture.clone, r.2,
    [HostCall.getOrCreateFromMemory identifier memory memory.length])

/-- Embeds `load_texture_from_file` (texture.rs lines 197-212): converts the
strings and calls the host's `load_from_file`, substituting
`dummy_receive_texture` when no callback is given. -/
def load_texture_from_file (api : TextureApi) (identifier file : RStr)
    (callback : Option RawTextureReceiveCallback) (mem : Mem) :
    Mem × List HostCall :=
  let identifier := str_to_c identifier
  let file := path_to_c file
  let cb := callback.getD dummy_receive_texture
  (api.load_from_file identifier file cb mem,
    [HostCall.loadFromFile identifier file cb])

/-- Embeds `load_texture_from_resource` (texture.rs lines 217-235). -/
def load_texture_from_resource (api : TextureApi) (identifier : RStr)
    (resource_id : Nat) (module : HMODULE)
    (callback : Option RawTextureReceiveCallback) (mem : Mem) :
    Mem × List HostCall :=
  let identifier := str_to_c identifier
  let cb := callback.getD dummy_receive_texture
  (api.load_from_resource identifier resource_id module cb mem,
    [HostCall.loadFromResource identifier resource_id module cb])

/-- Embeds `load_texture_from_url` (texture.rs lines 252-270). -/
def load_texture_from_url (api : TextureApi)
    (identifier remote endpoint : RStr)
    (callback : Option RawTextureReceiveCallback) (mem : Mem) :
    Mem × List HostCall :=
  let identifier := str_to_c identifier
  let remote := str_to_c remote
  let endpoint := str_to_c endpoint
  let cb := callback.getD dummy_receive_texture
  (api.load_from_url identifier remote endpoint cb mem,
    [HostCall.loadFromUrl identifier remote endpoint cb])

/-- Embeds `load_texture_from_memory` (texture.rs lines 275-293). -/
def load_texture_from_memory (api : TextureApi) (identifier : RStr)
    (data : List Nat) (callback : Option RawTextureReceiveCallback)
    (mem : Mem) : Mem × List HostCall :=
  let identifier := str_to_c identifier
  let cb := callback.getD dummy_receive_texture
  (api.load_from_memory identifier data data.length cb mem,
    [HostCall.loadFromMemory identifier data data.length cb])

/-- The `texture_receive` macro (texture.rs lines 310-327): wraps a
callback `fn(&str, Option<&Texture>)` into a raw C-ABI callback. The
generated wrapper decodes the identifier C string (panicking, modelled
as `Except.error`, when it is null or not valid UTF-8), turns the
texture pointer into its pointee option, and invokes the wrapped
callback. The wrapped callback's result type is abstracted as `α`. -/
def texture_receive {α : Type} (callback : RStr → Option Texture → α)
    (identifier : CStrPtr) (texture : Option Texture) : Except String α :=
  match str_from_c identifier with
  | some s => Except.ok (callback s texture)
  | none => Except.error "invalid identifier in texture callback"

/-- Embeds `AddonVersion` (addon.rs lines 59-68): four `i16` components. -/
structure AddonVersion where
  major : Int
  minor : Int
  build : Int
  revision : Int
  deriving DecidableEq

/-- Embeds `AddonFlags` (addon.rs lines 70-86): a `u32` bitflags value. -/
structure AddonFlags where
  bits : Nat
  deriving DecidableEq

/-- Flag constant `AddonFlags::None`. -/
def AddonFlags.None : AddonFlags := ⟨0⟩

/-- Flag constant `AddonFlags::IsVolatile`. -/
def AddonFlags.IsVolatile : AddonFlags := ⟨1⟩

/-- Flag constant `AddonFlags::DisableHotloading`. -/
def AddonFlags.DisableHotloading : AddonFlags := ⟨2⟩

/-- Flag constant `AddonFlags::OnlyLoadDuringGameLaunchSequence`. -/
def AddonFlags.OnlyLoadDuringGameLaunchSequence : AddonFlags := ⟨4⟩

/-- Embeds `UpdateProvider` (addon.rs lines 104-122): the platform an
addon's updates are hosted on. -/
inductive UpdateProvider where
  | None
  | Raidcore
  | GitHub
  | Direct
  | Manual
  deriving DecidableEq

/-- The `repr(C)` discriminant of each `UpdateProvider` variant. -/
def UpdateProvider.discriminant : UpdateProvider → Nat
  | .None => 0
  | .Raidcore => 1
  | .GitHub => 2
  | .Direct => 3
  | .Manual => 4

/-- A raw pointer to the host's `AddonApi` table, an opaque address. -/
abbrev AddonApiPtr := Nat

/-- Embeds `RawAddonLoad` (addon.rs line 55): an
`extern "C-unwind" fn(api: *const AddonApi)`. -/
abbrev RawAddonLoad := AddonApiPtr → Unit

/-- Embeds `RawAddonUnload` (addon.rs line 57): an
`extern "C-unwind" fn()`. -/
abbrev RawAddonUnload := Unit → Unit

/-- Embeds `AddonDefinition` (addon.rs lines 7-45): the fixed-layout addon
descriptor handed to the host, with its fields in source order. The
`unload` function pointer is the only optional field among them. -/
structure AddonDefinition where
  signature : Int
  api_version : Int
  name : CStrPtr
  version : AddonVersion
  author : CStrPtr
  description : CStrPtr
  load : RawAddonLoad
  unload : Option RawAddonUnload
  flags : AddonFlags
  provider : UpdateProvider
  update_link : CStrPtr

/-- Dereferencing and cloning the host's returned pointer yields `none`
exactly when the pointer is null. -/
theorem ptr_as_ref_clone_none_iff (mem : Mem) (p : Nat) :
    ((ptr_as_ref mem p).map Texture.clone = none) ↔ p = 0 := by
  unfold ptr_as_ref
  by_cases h : p = 0 <;> simp [h]

/-- Claim C1: each texture-retrieval wrapper returns `None` exactly when
the host's corresponding raw function returns a null pointer, and
otherwise returns `Some` of a copy of the pointed-to `Texture`; host
failures surface only as an optional result, never as a distinct error
value (the result type is `Option Texture` and the result is exactly the
dereference-and-clone of the host's returned pointer). -/
theorem claim_C1_none_iff_host_null (api : TextureApi) (mem : Mem)
    (id file remote endpoint : RStr) (rid : Nat) (module : HMODULE)
    (memory : List Nat) :
    ((get_texture api id mem).1 = none ↔
      (api.get (str_to_c id) mem).1 = 0)
    ∧ (get_texture api id mem).1 =
      (ptr_as_ref (api.get (str_to_c id) mem).2
        (api.get (str_to_c id) mem).1).map Texture.clone
    ∧ ((get_texture_or_create_from_file api id file mem).1 = none ↔
      (api.get_or_create_from_file (str_to_c id) (path_to_c file) mem).1 = 0)
    ∧ (get_texture_or_create_from_file api id file mem).1 =
      (ptr_as_ref (api.get_or_create_from_file (str_to_c id) (path_to_c file) mem).2
        (api.get_or_create_from_file (str_to_c id) (path_to_c file) mem).1).map Texture.clone
    ∧ ((get_texture_or_create_from_resource api id rid module mem).1 = none ↔
      (api.get_or_create_from_resource (str_to_c id) rid module mem).1 = 0)
    ∧ (get_texture_or_create_from_resource api id rid module mem).1 =
      (ptr_as_ref (api.get_or_create_from_resource (str_to_c id) rid module mem).2
        (api.get_or_create_from_resource (str_to_c id) rid module mem).1).map Texture.clone
    ∧ ((get_texture_or_create_from_url api id remote endpoint mem).1 = none ↔
      (api.get_or_create_from_url (str_to_c id) (str_to_c remote) (str_to_c endpoint) mem).1 = 0)
    ∧ (get_texture_or_create_from_url api id remote endpoint mem).1 =
      (ptr_as_ref (api.get_or_create_from_url (str_to_c id) (str_to_c remote) (str_to_c endpoint) mem).2
        (api.get_or_create_from_url (str_to_c id) (str_to_c remote) (str_to_c endpoint) mem).1).map Texture.clone
    ∧ ((get_texture_or_create_from_memory api id memory mem).1 = none ↔
      (api.get_or_create_from_memory (str_to_c id) memory memory.length mem).1 = 0)
    ∧ (get_texture_or_create_from_memory api id memory mem).1 =
      (ptr_as_ref (api.get_or_create_from_memory (str_to_c id) memory memory.length mem).2
        (api.get_or_create_from_memory (str_to_c id) memory memory.length mem).1).map Texture.clone :=
  ⟨ptr_as_ref_clone_none_iff _ _, rfl,
   ptr_as_ref_clone_none_iff _ _, rfl,
   ptr_as_ref_clone_none_iff _ _, rfl,
   ptr_as_ref_clone_none_iff _ _, rfl,
   ptr_as_ref_clone_none_iff _ _, rfl⟩

/-- Claim C2: every public texture wrapper marshals each of its string
(or path) arguments into a NUL-terminated C string and calls through
the corresponding raw host function pointer with exactly those
marshalled arguments, adding no other transformation: the single host
call each wrapper records carries `str_to_c`/`path_to_c` of the string
arguments and every non-string argument unchanged. -/
theorem claim_C2_marshalling (api : TextureApi) (mem : Mem)
    (id file remote endpoint : RStr) (rid : Nat) (module : HMODULE)
    (memory : List Nat) (cb : Option RawTextureReceiveCallback) :
    (get_texture api id mem).2.2 = [HostCall.get (str_to_c id)]
    ∧ (get_texture_or_create_from_file api id file mem).2.2 =
      [HostCall.getOrCreateFromFile (str_to_c id) (path_to_c file)]
    ∧ (get_texture_or_create_from_resource api id rid module mem).2.2 =
      [HostCall.getOrCreateFromResource (str_to_c id) rid module]
    ∧ (get_texture_or_create_from_url api id remote endpoint mem).2.2 =
      [HostCall.getOrCreateFromUrl (str_to_c id) (str_to_c remote) (str_to_c endpoint)]
    ∧ (get_texture_or_create_from_memory api id memory mem).2.2 =
      [HostCall.getOrCreateFromMemory (str_to_c id) memory memory.length]
    ∧ (load_texture_from_file api id file cb mem).2 =
      [HostCall.loadFromFile (str_to_c id) (path_to_c file)
        (cb.getD dummy_receive_texture)]
    ∧ (load_texture_from_resource api id rid module cb mem).2 =
      [HostCall.loadFromResource (str_to_c id) rid module
        (cb.getD dummy_receive_texture)]
    ∧ (load_texture_from_url api id remote endpoint cb mem).2 =
      [HostCall.loadFromUrl (str_to_c id) (str_to_c remote) (str_to_c endpoint)
        (cb.getD dummy_receive_texture)]
    ∧ (load_texture_from_memory api id memory cb mem).2 =
      [HostCall.loadFromMemory (str_to_c id) memory memory.length
        (cb.getD dummy_receive_texture)] :=
  ⟨rfl, rfl, rfl, rfl, rfl, rfl, rfl, rfl, rfl⟩

/-- Claim C3: every public wrapper only forwards a call across the
boundary: each invocation performs exactly one host call (its trace has
length one) and its entire effect on host state is that single call
(the final host memory is exactly what the one corresponding raw
function application produced); the wrapper itself adds no state change
of its own. -/
theorem claim_C3_single_host_call (api : TextureApi) (mem : Mem)
    (id file remote endpoint : RStr) (rid : Nat) (module : HMODULE)
    (memory : List Nat) (cb : Option RawTextureReceiveCallback) :
    ((get_texture api id mem).2.2.length = 1
      ∧ (get_texture api id mem).2.1 = (api.get (str_to_c id) mem).2)
    ∧ ((get_texture_or_create_from_file api id file mem).2.2.length = 1
      ∧ (get_texture_or_create_from_file api id file mem).2.1 =
        (api.get_or_create_from_file (str_to_c id) (path_to_c file) mem).2)
    ∧ ((get_texture_or_create_from_resource api id rid module mem).2.2.length = 1
      ∧ (get_texture_or_create_from_resource api id rid module mem).2.1 =
        (api.get_or_create_from_resource (str_to_c id) rid module mem).2)
    ∧ ((get_texture_or_create_from_url api id remote endpoint mem).2.2.length = 1
      ∧ (get_texture_or_create_from_url api id remote endpoint mem).2.1 =
        (api.get_or_create_from_url (str_to_c id) (str_to_c remote) (str_to_c endpoint) mem).2)
    ∧ ((get_texture_or_create_from_memory api id memory mem).2.2.length = 1
      ∧ (get_texture_or_create_from_memory api id memory mem).2.1 =
        (api.get_or_create_from_memory (str_to_c id) memory memory.length mem).2)
    ∧ ((load_texture_from_file api id file cb mem).2.length = 1
      ∧ (load_texture_from_file api id file cb mem).1 =
        api.load_from_file (str_to_c id) (path_to_c file)
          (cb.getD dummy_receive_texture) mem)
    ∧ ((load_texture_from_resource api id rid module cb mem).2.length = 1
      ∧ (load_texture_from_resource api id rid module cb mem).1 =
        api.load_from_resource (str_to_c id) rid module
          (cb.getD dummy_receive_texture) mem)
    ∧ ((load_texture_from_url api id remote endpoint cb mem).2.length = 1
      ∧ (load_texture_from_url api id remote endpoint cb mem).1 =
        api.load_from_url (str_to_c id) (str_to_c remote) (str_to_c endpoint)
          (cb.getD dummy_receive_texture) mem)
    ∧ ((load_texture_from_memory api id memory cb mem).2.length = 1
      ∧ (load_texture_from_memory api id memory cb mem).1 =
        api.load_from_memory (str_to_c id) memory memory.length
          (cb.getD dummy_receive_texture) mem) :=
  ⟨⟨rfl, rfl⟩, ⟨rfl, rfl⟩, ⟨rfl, rfl⟩, ⟨rfl, rfl⟩, ⟨rfl, rfl⟩,
   ⟨rfl, rfl⟩, ⟨rfl, rfl⟩, ⟨rfl, rfl⟩, ⟨rfl, rfl⟩⟩

/-- Claim C5: the addon descriptor `AddonDefinition` contains a name, a
version, an author, flags, update-provider metadata (provider and
update link), and load/unload function pointers; every descriptor value
is fully determined by exactly these fields (in source order, together
with signature, api_version and description), the unload pointer is the
only `Option`-typed one among them, and all other listed fields are
present unconditionally. -/
theorem claim_C5_addon_definition_fields (d : AddonDefinition) :
    d = AddonDefinition.mk d.signature d.api_version d.name d.version
      d.author d.description d.load d.unload d.flags d.provider
      d.update_link
    ∧ (d.unload = none ∨ ∃ f, d.unload = some f) := by
  refine ⟨rfl, ?_⟩
  cases h : d.unload with
  | none => exact Or.inl rfl
  | some f => exact Or.inr ⟨f, rfl⟩

/-- Claim C6: a texture handle consists of a width, a height, and an
opaque native resource reference (every `Texture` is exactly these
three fields); the binding only borrows the host-owned texture: a
retrieval wrapper call leaves host texture memory exactly as the host
call produced it (the binding writes nothing), and the value it hands
back is a clone — a value copy — rather than the host's own storage. -/
theorem claim_C6_texture_borrowed :
    (∀ t : Texture, t = Texture.mk t.width t.height t.resource)
    ∧ (∀ t : Texture, Texture.clone t = t)
    ∧ (∀ (api : TextureApi) (id : RStr) (mem : Mem),
        (get_texture api id mem).2.1 = (api.get (str_to_c id) mem).2) :=
  ⟨fun _ => rfl, fun _ => rfl, fun _ _ _ => rfl⟩

/-- Claim C7: the wrapper generated by the `texture_receive` macro, when
invoked with a pointer to a valid UTF-8 identifier C string, calls the
wrapped callback exactly once, with the decoded identifier string and
with the texture pointer's pointee option (`Some` of the pointed-to
texture when non-null, `None` when null); its result is exactly the
callback's result, for every callback and result type. -/
theorem claim_C7_texture_receive_invokes_callback (α : Type)
    (f : RStr → Option Texture → α) (s : RStr) (t : Option Texture) :
    texture_receive f (CStrPtr.valid s) t = Except.ok (f s t) := rfl

/-- Claim C8: each `load_texture_from_*` wrapper called with callback
argument `none` passes the no-op `dummy_receive_texture` to the host's
raw load function — a callable callback that performs no action — and
never a null function pointer (the callback slot of the recorded host
call is the total function `dummy_receive_texture`, not an optional
value). -/
theorem claim_C8_dummy_callback_when_none (api : TextureApi) (mem : Mem)
    (id file remote endpoint : RStr) (rid : Nat) (module : HMODULE)
    (data : List Nat) :
    (∀ (i : CStrPtr) (t : Option Texture), dummy_receive_texture i t = [])
    ∧ (load_texture_from_file api id file none mem).2 =
      [HostCall.loadFromFile (str_to_c id) (path_to_c file) dummy_receive_texture]
    ∧ (load_texture_from_resource api id rid module none mem).2 =
      [HostCall.loadFromResource (str_to_c id) rid module dummy_receive_texture]
    ∧ (load_texture_from_url api id remote endpoint none mem).2 =
      [HostCall.loadFromUrl (str_to_c id) (str_to_c remote) (str_to_c endpoint)
        dummy_receive_texture]
    ∧ (load_texture_from_memory api id data none mem).2 =
      [HostCall.loadFromMemory (str_to_c id) data data.length
        dummy_receive_texture] :=
  ⟨fun _ _ => rfl, rfl, rfl, rfl, rfl⟩

/-- Claim C9: `Texture.resource_ptr` returns the null pointer exactly when
the `resource` field is `None`, and consequently `Texture.id` is the
`TextureId` made from the null pointer exactly when the texture has no
resource. -/
theorem claim_C9_resource_ptr_null_iff (t : Texture) :
    (t.resource_ptr = 0 ↔ t.resource = none)
    ∧ (t.id = TextureId.mk 0 ↔ t.resource = none) := by
  have hptr : t.resource_ptr = 0 ↔ t.resource = none := by
    unfold Texture.resource_ptr
    cases h : t.resource with
    | none => simp
    | some r => simp [r.prop]
  refine ⟨hptr, ?_⟩
  rw [← hptr]
  unfold Texture.id
  exact ⟨fun h => congrArg TextureId.ptr h, fun h => congrArg TextureId.mk h⟩

/-- Claim C10: the wrapper generated by the `texture_receive` macro, when
invoked with an identifier pointer that is null or does not point to
valid UTF-8 data, panics (modelled as `Except.error` with the source's
panic message) instead of invoking the wrapped callback: the result is
the error and is independent of the wrapped callback. -/
theorem claim_C10_texture_receive_panics (α : Type)
    (f g : RStr → Option Texture → α) (t : Option Texture) :
    texture_receive f CStrPtr.null t =
      Except.error "invalid identifier in texture callback"
    ∧ texture_receive f CStrPtr.invalid t =
      Except.error "invalid identifier in texture callback"
    ∧ texture_receive f CStrPtr.null t = texture_receive g CStrPtr.null t
    ∧ texture_receive f CStrPtr.invalid t =
      texture_receive g CStrPtr.invalid t :=
  ⟨rfl, rfl, rfl, rfl⟩
